import Mathlib

/-!
Verification of the GeoJSON type-tag dispatch and bidirectional conversion
layer (`src/geojson.rs` of the geojson crate): the `GeoJson` union, its
conversions to and from JSON objects, values and text, the checked
narrowing conversions, and the error taxonomy.

JSON values are embedded as an inductive tree; number payloads are opaque
to this layer and are modelled by `Int`.  The coordinate-position type
parameter `P` is likewise opaque to the dispatch layer; positions only
occur inside the opaque payloads of the collaborator models below.
-/

namespace Geojson

/-- A JSON value: the tree produced by the external JSON parser
(null / bool / number / string / array / object nodes). -/
inductive Json where
  | null : Json
  | bool (b : Bool) : Json
  | number (n : Int) : Json
  | string (s : String) : Json
  | arr (items : List Json) : Json
  | obj (members : List (String × Json)) : Json

/-- A JSON object: a mapping from string keys to JSON values, supporting
get-by-key; `serde_json::Map<String, Value>`. -/
abbrev JsonObject := List (String × Json)

/-- Embeds `JsonObject::get`: look up the first entry with the given key. -/
def JsonObject.get : JsonObject → String → Option Json
  | [], _ => none
  | (k, v) :: rest, key => if k = key then some v else JsonObject.get rest key

/-- The error of the external JSON parser (`serde_json::Error`), opaque to
this layer. -/
abbrev ParseErr := String

/-- The error taxonomy of `Error<P>` as used by this module.
`CollaboratorError` stands for the error kinds raised by the
Geometry / Feature / FeatureCollection constructors themselves
(modelled from the spec: those constructors fail with their own error
kinds on malformed sub-structure, which this layer propagates opaquely). -/
inductive Error where
  | GeometryUnknownType (key : String)
  | EmptyType
  | GeoJsonExpectedObject (value : Json)
  | ExpectedObjectValue (value : Json)
  | MalformedJson (err : ParseErr)
  | ExpectedType (expected : String) (actual : String)
  | CollaboratorError (message : String)

/-- The nine-way type tag (`enum Type` in `geojson.rs`). -/
inductive TypeTag where
  | Point | MultiPoint | LineString | MultiLineString
  | Polygon | MultiPolygon | GeometryCollection
  | Feature | FeatureCollection

/-- Embeds `Type::from_str`: exact, case-sensitive match against the nine
recognized literals; anything else is `None`. -/
def TypeTag.from_str (s : String) : Option TypeTag :=
  if s = "Point" then some .Point
  else if s = "MultiPoint" then some .MultiPoint
  else if s = "LineString" then some .LineString
  else if s = "MultiLineString" then some .MultiLineString
  else if s = "Polygon" then some .Polygon
  else if s = "MultiPolygon" then some .MultiPolygon
  else if s = "GeometryCollection" then some .GeometryCollection
  else if s = "Feature" then some .Feature
  else if s = "FeatureCollection" then some .FeatureCollection
  else none

/-- Helper for the collaborator models: an optional member becomes zero or
one key/value entries. -/
def optEntry (k : String) : Option Json → JsonObject
  | none => []
  | some v => [(k, v)]

/-- Entry predicate: the entry's key is not among the reserved keys. -/
def notReserved (keys : List String) (kv : String × Json) : Bool :=
  !(keys.contains kv.1)

/-- Drop the entries whose key is reserved (how the collaborator
constructors collect foreign members). -/
def removeKeys (keys : List String) (o : JsonObject) : JsonObject :=
  o.filter (notReserved keys)

/-- No entry of the object uses a reserved key. -/
def keysDisjoint (keys : List String) (o : JsonObject) : Bool :=
  o.all (notReserved keys)

/-- Modelled from the spec: the seven geometry shapes of the geometry
coordinate model (`Value<P>` lives outside `src/geojson.rs`); the
coordinate payload itself is opaque to the dispatch layer. -/
inductive GeomType where
  | Point | MultiPoint | LineString | MultiLineString
  | Polygon | MultiPolygon | GeometryCollection

/-- The tag string a geometry shape re-emits as its own "type" member. -/
def GeomType.tagString : GeomType → String
  | .Point => "Point"
  | .MultiPoint => "MultiPoint"
  | .LineString => "LineString"
  | .MultiLineString => "MultiLineString"
  | .Polygon => "Polygon"
  | .MultiPolygon => "MultiPolygon"
  | .GeometryCollection => "GeometryCollection"

/-- The member key holding a geometry's payload: "geometries" for a
GeometryCollection, "coordinates" for the six coordinate-bearing shapes. -/
def GeomType.payloadKey : GeomType → String
  | .GeometryCollection => "geometries"
  | _ => "coordinates"

/-- Recognize one of the seven geometry tag strings. -/
def GeomType.ofTag (s : String) : Option GeomType :=
  if s = "Point" then some .Point
  else if s = "MultiPoint" then some .MultiPoint
  else if s = "LineString" then some .LineString
  else if s = "MultiLineString" then some .MultiLineString
  else if s = "Polygon" then some .Polygon
  else if s = "MultiPolygon" then some .MultiPolygon
  else if s = "GeometryCollection" then some .GeometryCollection
  else none

/-- Modelled from the spec: `Geometry<P>` (defined outside
`src/geojson.rs`): one of the seven shapes, its coordinate / geometries
payload (opaque to this layer), an optional bounding box and foreign
members. -/
structure Geometry where
  gtype : GeomType
  payload : Json
  bbox : Option Json
  foreign_members : JsonObject

/-- Modelled from the spec: `From<&Geometry<P>> for JsonObject` — total
serialization re-emitting the shape's own "type" member, its payload,
bbox and foreign members. -/
def Geometry.toJsonObject (g : Geometry) : JsonObject :=
  ("type", Json.string g.gtype.tagString)
    :: (g.gtype.payloadKey, g.payload)
    :: (optEntry "bbox" g.bbox ++ g.foreign_members)

/-- Modelled from the spec: `TryFrom<JsonObject> for Geometry<P>` — the
geometry constructor, failing with its own error kinds on malformed
sub-structure and collecting unrecognized members as foreign members. -/
def Geometry.try_from_object (o : JsonObject) : Except Error Geometry :=
  match JsonObject.get o "type" with
  | some (Json.string t) =>
    match GeomType.ofTag t with
    | some ty =>
      match JsonObject.get o ty.payloadKey with
      | some payload =>
        .ok { gtype := ty, payload := payload, bbox := JsonObject.get o "bbox",
              foreign_members := removeKeys ["type", ty.payloadKey, "bbox"] o }
      | none => .error (.CollaboratorError "missing geometry payload")
    | none => .error (.CollaboratorError "unrecognized geometry type")
  | _ => .error (.CollaboratorError "missing geometry type")

/-- Modelled from the spec: `Feature<P>` (defined outside
`src/geojson.rs`): optional geometry, optional identifier (opaque),
optional free-form properties object, optional bounding box, and foreign
members. -/
structure Feature where
  bbox : Option Json
  geometry : Option Geometry
  id : Option Json
  properties : Option JsonObject
  foreign_members : JsonObject

/-- Modelled from the spec: `From<&Feature<P>> for JsonObject` — total
serialization re-emitting the "type" member, the geometry and properties
(as null when absent), and the optional id, bbox and foreign members. -/
def Feature.toJsonObject (f : Feature) : JsonObject :=
  ("type", Json.string "Feature")
    :: ("geometry",
        match f.geometry with
        | some g => Json.obj (Geometry.toJsonObject g)
        | none => Json.null)
    :: ("properties",
        match f.properties with
        | some p => Json.obj p
        | none => Json.null)
    :: (optEntry "id" f.id ++ optEntry "bbox" f.bbox ++ f.foreign_members)

/-- Modelled from the spec: `TryFrom<JsonObject> for Feature<P>` — the
feature constructor, validating the geometry / properties / id / bbox
members and collecting unknown members as foreign members. -/
def Feature.try_from_object (o : JsonObject) : Except Error Feature :=
  match JsonObject.get o "type" with
  | some (Json.string "Feature") =>
    match
      (match JsonObject.get o "geometry" with
       | none => Except.ok none
       | some Json.null => Except.ok none
       | some (Json.obj go) => (Geometry.try_from_object go).map some
       | some _ => Except.error (Error.CollaboratorError "feature geometry not an object")) with
    | .error e => .error e
    | .ok geometry =>
      match
        (match JsonObject.get o "properties" with
         | none => Except.ok none
         | some Json.null => Except.ok none
         | some (Json.obj po) => Except.ok (some po)
         | some _ => Except.error (Error.CollaboratorError "feature properties not an object")) with
      | .error e => .error e
      | .ok properties =>
        .ok { bbox := JsonObject.get o "bbox", geometry := geometry,
              id := JsonObject.get o "id", properties := properties,
              foreign_members :=
                removeKeys ["type", "geometry", "properties", "id", "bbox"] o }
  | _ => .error (.CollaboratorError "feature type mismatch")

/-- Modelled from the spec: `FeatureCollection<P>` (defined outside
`src/geojson.rs`): an ordered sequence of features, an optional bounding
box and foreign members. -/
structure FeatureCollection where
  bbox : Option Json
  features : List Feature
  foreign_members : JsonObject

/-- Modelled from the spec: `From<&FeatureCollection<P>> for JsonObject`
— total serialization re-emitting the "type" member, the features array
in order, and the optional bbox and foreign members. -/
def FeatureCollection.toJsonObject (fc : FeatureCollection) : JsonObject :=
  ("type", Json.string "FeatureCollection")
    :: ("features", Json.arr (fc.features.map fun f => Json.obj (Feature.toJsonObject f)))
    :: (optEntry "bbox" fc.bbox ++ fc.foreign_members)

/-- Run a fallible conversion over every element, failing on the first
failure (`Vec` conversion via `collect::<Result<_, _>>`). -/
def mapExcept (f : α → Except Error β) : List α → Except Error (List β)
  | [] => .ok []
  | x :: xs =>
    match f x with
    | .error e => .error e
    | .ok y =>
      match mapExcept f xs with
      | .error e => .error e
      | .ok ys => .ok (y :: ys)

/-- Modelled from the spec: an element of a "features" array must be an
object convertible to a Feature. -/
def featureFromValue (j : Json) : Except Error Feature :=
  match j with
  | Json.obj o => Feature.try_from_object o
  | _ => .error (.CollaboratorError "feature element not an object")

/-- Modelled from the spec: `TryFrom<JsonObject> for FeatureCollection<P>`
— the collection constructor, converting every element of the "features"
array and collecting unknown members as foreign members. -/
def FeatureCollection.try_from_object (o : JsonObject) : Except Error FeatureCollection :=
  match JsonObject.get o "type" with
  | some (Json.string "FeatureCollection") =>
    match JsonObject.get o "features" with
    | some (Json.arr items) =>
      match mapExcept featureFromValue items with
      | .error e => .error e
      | .ok features =>
        .ok { bbox := JsonObject.get o "bbox", features := features,
              foreign_members := removeKeys ["type", "features", "bbox"] o }
    | _ => .error (.CollaboratorError "missing features array")
  | _ => .error (.CollaboratorError "feature collection type mismatch")

/-- Embeds `enum GeoJson<Pos>`: the three-variant tagged union. -/
inductive GeoJson where
  | Geometry (g : Geometry)
  | Feature (f : Feature)
  | FeatureCollection (fc : FeatureCollection)

/-- Embeds `From<&GeoJson<P>> for JsonObject`: pure structural match, each arm
delegating to the variant's own serialization. -/
def GeoJson.toJsonObject : GeoJson → JsonObject
  | .Geometry g => Geometry.toJsonObject g
  | .Feature f => Feature.toJsonObject f
  | .FeatureCollection fc => FeatureCollection.toJsonObject fc

/-- Embeds `From<GeoJson<P>> for JsonValue`: each variant's object wrapped as a
JSON value of object kind. -/
def GeoJson.into_json_value : GeoJson → Json
  | .Geometry g => Json.obj (Geometry.toJsonObject g)
  | .Feature f => Json.obj (Feature.toJsonObject f)
  | .FeatureCollection fc => Json.obj (FeatureCollection.toJsonObject fc)

/-- Embeds `GeoJson::to_json_value`: convenience wrapper over the `From` impl. -/
def GeoJson.to_json_value (g : GeoJson) : Json :=
  GeoJson.into_json_value g

/-- Embeds `From<Geometry<P>> for GeoJson<P>`: total wrapping. -/
def GeoJson.from_geometry (geometry : Geojson.Geometry) : GeoJson :=
  GeoJson.Geometry geometry

/-- Embeds `From<Feature<P>> for GeoJson<P>`: total wrapping. -/
def GeoJson.from_feature (feature : Geojson.Feature) : GeoJson :=
  GeoJson.Feature feature

/-- Embeds `From<FeatureCollection<P>> for GeoJson<P>`: total wrapping. -/
def GeoJson.from_feature_collection (feature_collection : Geojson.FeatureCollection) : GeoJson :=
  GeoJson.FeatureCollection feature_collection

/-- Embeds `TryFrom<GeoJson<P>> for Geometry<P>`: checked narrowing. -/
def Geometry.try_from_geojson : GeoJson → Except Error Geometry
  | .Geometry g => .ok g
  | .Feature _ => .error (.ExpectedType "Geometry" "Feature")
  | .FeatureCollection _ => .error (.ExpectedType "Geometry" "FeatureCollection")

/-- Embeds `TryFrom<GeoJson<P>> for Feature<P>`: checked narrowing. -/
def Feature.try_from_geojson : GeoJson → Except Error Feature
  | .Geometry _ => .error (.ExpectedType "Feature" "Geometry")
  | .Feature f => .ok f
  | .FeatureCollection _ => .error (.ExpectedType "Feature" "FeatureCollection")

/-- Embeds `TryFrom<GeoJson<P>> for FeatureCollection<P>`: checked narrowing. -/
def FeatureCollection.try_from_geojson : GeoJson → Except Error FeatureCollection
  | .Geometry _ => .error (.ExpectedType "FeatureCollection" "Geometry")
  | .Feature _ => .error (.ExpectedType "FeatureCollection" "Feature")
  | .FeatureCollection f => .ok f

/-- Embeds `TryFrom<JsonObject> for GeoJson<P>`: resolve the "type" member, then
dispatch to the matching constructor. -/
def GeoJson.try_from_object (object : JsonObject) : Except Error GeoJson :=
  match JsonObject.get object "type" with
  | some (Json.string t) =>
    match TypeTag.from_str t with
    | none => .error .EmptyType
    | some ty =>
      match ty with
      | .Feature => (Feature.try_from_object object).map GeoJson.Feature
      | .FeatureCollection =>
        (FeatureCollection.try_from_object object).map GeoJson.FeatureCollection
      | _ => (Geometry.try_from_object object).map GeoJson.Geometry
  | _ => .error (.GeometryUnknownType "type")

/-- Embeds `GeoJson::from_json_object`. -/
def GeoJson.from_json_object (object : JsonObject) : Except Error GeoJson :=
  GeoJson.try_from_object object

/-- Embeds `TryFrom<JsonValue> for GeoJson<P>`: succeed only on an object. -/
def GeoJson.try_from_value (value : Json) : Except Error GeoJson :=
  match value with
  | Json.obj o => GeoJson.try_from_object o
  | v => .error (.GeoJsonExpectedObject v)

/-- Embeds `GeoJson::from_json_value`. -/
def GeoJson.from_json_value (value : Json) : Except Error GeoJson :=
  GeoJson.try_from_value value

/-- Embeds `get_object`: parse the text with the external JSON parser (passed in
as `parse`), keep an object top level, classify the two failure modes. -/
def get_object (parse : String → Except ParseErr Json) (s : String) :
    Except Error JsonObject :=
  match parse s with
  | .ok (Json.obj object) => .ok object
  | .ok other => .error (.ExpectedObjectValue other)
  | .error serde_error => .error (.MalformedJson serde_error)

/-- Embeds `FromStr::from_str`: `get_object` then `from_json_object`. -/
def GeoJson.from_str (parse : String → Except ParseErr Json) (s : String) :
    Except Error GeoJson :=
  match get_object parse s with
  | .error e => .error e
  | .ok object => GeoJson.from_json_object object

/-- Valid construction of a geometry: its foreign members do not shadow
the members the serialization owns. -/
def Geometry.wf (g : Geometry) : Bool :=
  keysDisjoint ["type", g.gtype.payloadKey, "bbox"] g.foreign_members

/-- Valid construction of feature: foreign members do not shadow owned
members, and the geometry (when present) is validly constructed. -/
def Feature.wf (f : Feature) : Bool :=
  keysDisjoint ["type", "geometry", "properties", "id", "bbox"] f.foreign_members
    && (match f.geometry with
        | some g => Geometry.wf g
        | none => true)

/-- Valid construction of a feature collection. -/
def FeatureCollection.wf (fc : FeatureCollection) : Bool :=
  keysDisjoint ["type", "features", "bbox"] fc.foreign_members
    && fc.features.all Feature.wf

/-- Valid construction of a union value. -/
def GeoJson.wf : GeoJson → Bool
  | .Geometry g => Geometry.wf g
  | .Feature f => Feature.wf f
  | .FeatureCollection fc => FeatureCollection.wf fc

/-- Does an error belong to the kinds the text-entry path may never
produce? (`GeoJsonExpectedObject` is value-entry only.) -/
def textPathExcluded : Error → Bool
  | .GeoJsonExpectedObject _ => true
  | _ => false

/-- Does an error belong to the kinds the value / object entry paths may
never produce? (`MalformedJson` and `ExpectedObjectValue` are
text-entry only.) -/
def valuePathExcluded : Error → Bool
  | .MalformedJson _ => true
  | .ExpectedObjectValue _ => true
  | _ => false

/-- The error of a conversion result, if it failed, satisfies `p`. -/
def errSatisfies (p : Error → Bool) : Except Error GeoJson → Bool
  | .error e => p e
  | .ok _ => true

/-- Looking up a key listed in `keys` in an object disjoint from `keys`
finds nothing. -/
theorem get_disjoint_none {keys : List String} {k : String} :
    ∀ (o : JsonObject), keysDisjoint keys o = true → k ∈ keys →
      JsonObject.get o k = none
  | [], _, _ => rfl
  | (k', _) :: rest, h, hk => by
    simp only [keysDisjoint, List.all_cons, Bool.and_eq_true] at h
    obtain ⟨h1, h2⟩ := h
    simp only [JsonObject.get]
    rw [if_neg, get_disjoint_none rest h2 hk]
    intro hkk
    subst hkk
    simp only [notReserved] at h1
    simp at h1
    exact h1 hk

/-- Removing reserved keys from an object disjoint from them changes
nothing. -/
theorem removeKeys_eq_self {keys : List String} {o : JsonObject}
    (h : keysDisjoint keys o = true) : removeKeys keys o = o := by
  simp only [keysDisjoint, List.all_eq_true] at h
  exact List.filter_eq_self.mpr h

/-- The geometry constructor inverts the geometry serialization on every
validly constructed geometry. -/
theorem geometry_constructor_round_trip (g : Geometry) (h : Geometry.wf g = true) :
    Geometry.try_from_object (Geometry.toJsonObject g) = .ok g := by
  obtain ⟨ty, payload, bbox, foreign⟩ := g
  simp only [Geometry.wf] at h
  cases ty <;> cases bbox <;>
    simp only [Geometry.toJsonObject, Geometry.try_from_object, GeomType.tagString,
      GeomType.payloadKey, GeomType.ofTag, JsonObject.get, optEntry, removeKeys,
      List.filter, notReserved, List.nil_append, List.cons_append] <;>
    simp_all [get_disjoint_none foreign h, keysDisjoint, List.filter_eq_self,
      List.all_eq_true, GeomType.payloadKey]

/-- The feature constructor inverts the feature serialization on every
validly constructed feature. -/
theorem feature_constructor_round_trip (f : Feature) (h : Feature.wf f = true) :
    Feature.try_from_object (Feature.toJsonObject f) = .ok f := by
  obtain ⟨bbox, geometry, id, properties, foreign⟩ := f
  simp only [Feature.wf, Bool.and_eq_true] at h
  obtain ⟨hfk, hg⟩ := h
  cases geometry <;> cases properties <;> cases id <;> cases bbox <;>
    simp only [Feature.toJsonObject, Feature.try_from_object, JsonObject.get, optEntry,
      removeKeys, List.filter, notReserved, List.nil_append, List.cons_append] <;>
    simp_all [geometry_constructor_round_trip, get_disjoint_none foreign hfk, keysDisjoint,
      List.filter_eq_self, List.all_eq_true, Except.map]

/-- Running `mapExcept` undoes an element-wise serialization that each element's
conversion inverts. -/
theorem mapExcept_round {f : α → Except Error β} {g : β → α} :
    ∀ (xs : List β), (∀ x ∈ xs, f (g x) = .ok x) →
      mapExcept f (xs.map g) = .ok xs
  | [], _ => rfl
  | x :: xs, h => by
    simp only [List.map_cons, mapExcept, h x (by simp)]
    rw [mapExcept_round xs (fun y hy => h y (by simp [hy]))]

/-- The collection constructor inverts the collection serialization on
every validly constructed feature collection. -/
theorem collection_constructor_round_trip (fc : FeatureCollection)
    (h : FeatureCollection.wf fc = true) :
    FeatureCollection.try_from_object (FeatureCollection.toJsonObject fc) = .ok fc := by
  obtain ⟨bbox, features, foreign⟩ := fc
  simp only [FeatureCollection.wf, Bool.and_eq_true, List.all_eq_true] at h
  obtain ⟨hfk, hfeat⟩ := h
  have hmap :
      mapExcept featureFromValue
        (features.map fun f => Json.obj (Feature.toJsonObject f)) = .ok features :=
    mapExcept_round features fun x hx => by
      simp [featureFromValue, feature_constructor_round_trip x (hfeat x hx)]
  cases bbox <;>
    simp only [FeatureCollection.toJsonObject, FeatureCollection.try_from_object,
      JsonObject.get, optEntry, removeKeys, List.filter, notReserved, List.nil_append,
      List.cons_append, hmap] <;>
    simp_all [get_disjoint_none foreign hfk, keysDisjoint, List.filter_eq_self,
      List.all_eq_true]

/-- On a serialized geometry, the union conversion resolves the geometry
tag and routes to the geometry constructor. -/
theorem try_from_object_on_geometry (g : Geometry) :
    GeoJson.try_from_object (Geometry.toJsonObject g) =
      (Geometry.try_from_object (Geometry.toJsonObject g)).map GeoJson.Geometry := by
  obtain ⟨ty, payload, bbox, foreign⟩ := g
  cases ty <;> rfl

/-- On a serialized feature, the union conversion resolves the Feature
tag and routes to the feature constructor. -/
theorem try_from_object_on_feature (f : Feature) :
    GeoJson.try_from_object (Feature.toJsonObject f) =
      (Feature.try_from_object (Feature.toJsonObject f)).map GeoJson.Feature := rfl

/-- On a serialized collection, the union conversion resolves the
FeatureCollection tag and routes to the collection constructor. -/
theorem try_from_object_on_feature_collection (fc : FeatureCollection) :
    GeoJson.try_from_object (FeatureCollection.toJsonObject fc) =
      (FeatureCollection.try_from_object (FeatureCollection.toJsonObject fc)).map
        GeoJson.FeatureCollection := rfl

/-- Object-level round trip of the union. -/
theorem GeoJson.round_trip_object (u : GeoJson) (h : GeoJson.wf u = true) :
    GeoJson.try_from_object (GeoJson.toJsonObject u) = .ok u := by
  cases u with
  | Geometry g =>
    simp only [GeoJson.wf] at h
    rw [GeoJson.toJsonObject, try_from_object_on_geometry, geometry_constructor_round_trip g h]
    rfl
  | Feature f =>
    simp only [GeoJson.wf] at h
    rw [GeoJson.toJsonObject, try_from_object_on_feature, feature_constructor_round_trip f h]
    rfl
  | FeatureCollection fc =>
    simp only [GeoJson.wf] at h
    rw [GeoJson.toJsonObject, try_from_object_on_feature_collection,
      collection_constructor_round_trip fc h]
    rfl

/-- The geometry constructor only fails with its own error kinds. -/
theorem geometry_error_kinds {o : JsonObject} {e : Error}
    (h : Geometry.try_from_object o = .error e) : ∃ m, e = .CollaboratorError m := by
  unfold Geometry.try_from_object at h
  repeat' split at h
  all_goals first
    | (cases h; exact ⟨_, rfl⟩)
    | cases h

/-- The feature constructor only fails with its own error kinds. -/
theorem feature_error_kinds {o : JsonObject} {e : Error}
    (h : Feature.try_from_object o = .error e) : ∃ m, e = .CollaboratorError m := by
  unfold Feature.try_from_object at h
  split at h
  · split at h
    · cases h
      rename_i heq
      split at heq
      · cases heq
      · cases heq
      · rename_i go hget
        cases hg : Geometry.try_from_object go with
        | error e2 =>
          rw [hg] at heq
          simp only [Except.map] at heq
          cases heq
          exact geometry_error_kinds hg
        | ok v =>
          rw [hg] at heq
          simp only [Except.map] at heq
          cases heq
      · cases heq
        exact ⟨_, rfl⟩
    · split at h
      · cases h
        rename_i heq
        split at heq
        · cases heq
        · cases heq
        · cases heq
        · cases heq
          exact ⟨_, rfl⟩
      · cases h
  · cases h
    exact ⟨_, rfl⟩

/-- A failing `mapExcept` fails on some element. -/
theorem mapExcept_error {f : α → Except Error β} :
    ∀ {xs : List α} {e : Error}, mapExcept f xs = .error e →
      ∃ x ∈ xs, f x = .error e
  | [], _, h => by cases h
  | x :: xs, e, h => by
    unfold mapExcept at h
    split at h
    · cases h
      rename_i hx
      exact ⟨x, by simp, hx⟩
    · split at h
      · cases h
        rename_i hxs
        obtain ⟨y, hy, hfy⟩ := mapExcept_error hxs
        exact ⟨y, by simp [hy], hfy⟩
      · cases h

/-- A features-array element conversion only fails with collaborator
error kinds. -/
theorem featureFromValue_error {j : Json} {e : Error}
    (h : featureFromValue j = .error e) : ∃ m, e = .CollaboratorError m := by
  unfold featureFromValue at h
  split at h
  · exact feature_error_kinds h
  · cases h
    exact ⟨_, rfl⟩

/-- The collection constructor only fails with its own error kinds. -/
theorem collection_error_kinds {o : JsonObject} {e : Error}
    (h : FeatureCollection.try_from_object o = .error e) :
    ∃ m, e = .CollaboratorError m := by
  unfold FeatureCollection.try_from_object at h
  split at h
  · split at h
    · split at h
      · cases h
        rename_i hmap
        obtain ⟨x, _, hx⟩ := mapExcept_error hmap
        exact featureFromValue_error hx
      · cases h
    · cases h
      exact ⟨_, rfl⟩
  · cases h
    exact ⟨_, rfl⟩

/-- The object-level union conversion only fails with the resolver's two
error kinds or a collaborator error kind. -/
theorem union_object_error_kinds {o : JsonObject} {e : Error}
    (h : GeoJson.try_from_object o = .error e) :
    e = .GeometryUnknownType "type" ∨ e = .EmptyType ∨
      ∃ m, e = .CollaboratorError m := by
  unfold GeoJson.try_from_object at h
  split at h
  · split at h
    · cases h
      exact Or.inr (Or.inl rfl)
    · split at h
      · cases hf : Feature.try_from_object o with
        | error e2 =>
          rw [hf] at h
          simp only [Except.map] at h
          cases h
          exact Or.inr (Or.inr (feature_error_kinds hf))
        | ok v =>
          rw [hf] at h
          simp only [Except.map] at h
          cases h
      · cases hf : FeatureCollection.try_from_object o with
        | error e2 =>
          rw [hf] at h
          simp only [Except.map] at h
          cases h
          exact Or.inr (Or.inr (collection_error_kinds hf))
        | ok v =>
          rw [hf] at h
          simp only [Except.map] at h
          cases h
      · cases hf : Geometry.try_from_object o with
        | error e2 =>
          rw [hf] at h
          simp only [Except.map] at h
          cases h
          exact Or.inr (Or.inr (geometry_error_kinds hf))
        | ok v =>
          rw [hf] at h
          simp only [Except.map] at h
          cases h
  · cases h
    exact Or.inl rfl

/-- The resolver recognizes no string outside the nine literals. -/
theorem TypeTag.from_str_none_iff (s : String) :
    TypeTag.from_str s = none ↔
      s ∉ ["Point", "MultiPoint", "LineString", "MultiLineString", "Polygon",
           "MultiPolygon", "GeometryCollection", "Feature", "FeatureCollection"] := by
  unfold TypeTag.from_str
  split_ifs with h1 h2 h3 h4 h5 h6 h7 h8 h9 <;> simp_all

/-- Case normal form of the text entry point. -/
theorem from_str_cases (parse : String → Except ParseErr Json) (s : String) :
    GeoJson.from_str parse s =
      match parse s with
      | .error e => .error (.MalformedJson e)
      | .ok (Json.obj o) => GeoJson.from_json_object o
      | .ok v => .error (.ExpectedObjectValue v) := by
  unfold GeoJson.from_str get_object
  cases parse s with
  | error e => rfl
  | ok v => cases v <;> rfl

/-- Any error classifier holding on the resolver's and the collaborators'
error kinds holds on every failure of the object entry point. -/
theorem errSatisfies_from_json_object (o : JsonObject) (q : Error → Bool)
    (hq : ∀ e, (e = .GeometryUnknownType "type" ∨ e = .EmptyType ∨
                 ∃ m, e = .CollaboratorError m) → q e = true) :
    errSatisfies q (GeoJson.from_json_object o) = true := by
  cases hr : GeoJson.from_json_object o with
  | ok _ => rfl
  | error e =>
    rw [errSatisfies]
    exact hq e (union_object_error_kinds hr)

/-- C1: a validly constructed union value, serialized to a JSON object,
rendered to text, re-parsed (the external parser reproducing the rendered
value, the contract this layer relies on), and converted back, is
structurally equal to the original — foreign members and bounding box
included. -/
theorem round_trip_through_text
    (render : Json → String) (parse : String → Except ParseErr Json) (V : GeoJson)
    (hwf : GeoJson.wf V = true)
    (hparse : parse (render (GeoJson.to_json_value V)) = .ok (GeoJson.to_json_value V)) :
    GeoJson.from_str parse (render (GeoJson.to_json_value V)) = .ok V := by
  have hv : GeoJson.to_json_value V = Json.obj (GeoJson.toJsonObject V) := by
    cases V <;> rfl
  rw [from_str_cases, hparse, hv]
  exact GeoJson.round_trip_object V hwf

/-- Witness for C1 at a concrete feature carrying a geometry, a bounding
box, an id, properties and a foreign member. -/
theorem round_trip_through_text_witness :
    GeoJson.from_str
      (fun _ => Except.ok (GeoJson.to_json_value (GeoJson.Feature
        { bbox := some (Json.arr [Json.number 0, Json.number 0]),
          geometry := some { gtype := GeomType.Point,
                             payload := Json.arr [Json.number 102, Json.number 0],
                             bbox := none, foreign_members := [] },
          id := some (Json.string "f1"),
          properties := some [("name", Json.string "hi")],
          foreign_members := [("extra", Json.number 7)] })))
      "doc" =
      Except.ok (GeoJson.Feature
        { bbox := some (Json.arr [Json.number 0, Json.number 0]),
          geometry := some { gtype := GeomType.Point,
                             payload := Json.arr [Json.number 102, Json.number 0],
                             bbox := none, foreign_members := [] },
          id := some (Json.string "f1"),
          properties := some [("name", Json.string "hi")],
          foreign_members := [("extra", Json.number 7)] }) :=
  round_trip_through_text (fun _ => "doc")
    (fun _ => Except.ok (GeoJson.to_json_value (GeoJson.Feature
      { bbox := some (Json.arr [Json.number 0, Json.number 0]),
        geometry := some { gtype := GeomType.Point,
                           payload := Json.arr [Json.number 102, Json.number 0],
                           bbox := none, foreign_members := [] },
        id := some (Json.string "f1"),
        properties := some [("name", Json.string "hi")],
        foreign_members := [("extra", Json.number 7)] })))
    (GeoJson.Feature
      { bbox := some (Json.arr [Json.number 0, Json.number 0]),
        geometry := some { gtype := GeomType.Point,
                           payload := Json.arr [Json.number 102, Json.number 0],
                           bbox := none, foreign_members := [] },
        id := some (Json.string "f1"),
        properties := some [("name", Json.string "hi")],
        foreign_members := [("extra", Json.number 7)] })
    rfl rfl

/-- C2: the object-level conversion fails with GeometryUnknownType "type"
when the "type" member is absent or not a string, and with EmptyType when
it is a string outside the nine recognized literals (exact,
case-sensitive matching). -/
theorem type_member_resolution (o : JsonObject) :
    ((∀ s, JsonObject.get o "type" ≠ some (Json.string s)) →
      GeoJson.from_json_object o = .error (.GeometryUnknownType "type"))
    ∧ (∀ s, JsonObject.get o "type" = some (Json.string s) →
        s ∉ ["Point", "MultiPoint", "LineString", "MultiLineString", "Polygon",
             "MultiPolygon", "GeometryCollection", "Feature", "FeatureCollection"] →
        GeoJson.from_json_object o = .error .EmptyType) := by
  constructor
  · intro hns
    unfold GeoJson.from_json_object GeoJson.try_from_object
    split
    · rename_i t ht
      exact absurd ht (hns t)
    · rfl
  · intro s hs hmem
    have hn : TypeTag.from_str s = none := (TypeTag.from_str_none_iff s).mpr hmem
    simp only [GeoJson.from_json_object, GeoJson.try_from_object, hs, hn]

/-- Witness for C2: a non-string "type" value and the unrecognized tag
"point". -/
theorem type_member_resolution_witness :
    GeoJson.from_json_object [("type", Json.number 1)] =
        .error (.GeometryUnknownType "type")
    ∧ GeoJson.from_json_object [("type", Json.string "point")] = .error .EmptyType :=
  ⟨(type_member_resolution [("type", Json.number 1)]).1
      (by intro s h; simp [JsonObject.get] at h),
   (type_member_resolution [("type", Json.string "point")]).2 "point"
      (by simp [JsonObject.get]) (by decide)⟩

/-- C3: when the object-level conversion succeeds on an object whose
"type" member is the string t, the resulting variant matches the
category implied by t. -/
theorem tag_variant_agreement (o : JsonObject) (t : String) (g : GeoJson)
    (ht : JsonObject.get o "type" = some (Json.string t))
    (hg : GeoJson.from_json_object o = .ok g) :
    (t = "Feature" → ∃ f, g = GeoJson.Feature f)
    ∧ (t = "FeatureCollection" → ∃ fc, g = GeoJson.FeatureCollection fc)
    ∧ (t ∈ ["Point", "MultiPoint", "LineString", "MultiLineString", "Polygon",
            "MultiPolygon", "GeometryCollection"] → ∃ ge, g = GeoJson.Geometry ge) := by
  unfold GeoJson.from_json_object GeoJson.try_from_object at hg
  rw [ht] at hg
  refine ⟨?_, ?_, ?_⟩
  · rintro rfl
    cases hf : Feature.try_from_object o with
    | error e =>
      rw [hf] at hg
      cases hg
    | ok f =>
      rw [hf] at hg
      exact ⟨f, (Except.ok.inj hg).symm⟩
  · rintro rfl
    cases hf : FeatureCollection.try_from_object o with
    | error e =>
      rw [hf] at hg
      cases hg
    | ok fc =>
      rw [hf] at hg
      exact ⟨fc, (Except.ok.inj hg).symm⟩
  · intro hmem
    simp only [List.mem_cons, List.not_mem_nil, or_false] at hmem
    rcases hmem with rfl | rfl | rfl | rfl | rfl | rfl | rfl <;>
      cases hge : Geometry.try_from_object o with
      | error e =>
        rw [hge] at hg
        cases hg
      | ok ge =>
        rw [hge] at hg
        exact ⟨ge, (Except.ok.inj hg).symm⟩

/-- Witness for C3 at a minimal feature object. -/
theorem tag_variant_agreement_witness :
    ∃ f, (GeoJson.Feature { bbox := none, geometry := none, id := none,
                            properties := none, foreign_members := [] } : GeoJson) =
      GeoJson.Feature f :=
  (tag_variant_agreement [("type", Json.string "Feature")] "Feature"
      (GeoJson.Feature { bbox := none, geometry := none, id := none,
                         properties := none, foreign_members := [] })
      rfl rfl).1 rfl

/-- C4 (amended): for a string the parser reads as v, the text entry
point agrees with the value entry point whenever v is an object (and so
on every success); when v is not an object the two report the same
offending value but under different error kinds: ExpectedObjectValue on
the text path, GeoJsonExpectedObject on the value path. -/
theorem from_str_vs_from_json_value
    (parse : String → Except ParseErr Json) (s : String) (v : Json)
    (h : parse s = .ok v) :
    (∀ o, v = Json.obj o → GeoJson.from_str parse s = GeoJson.from_json_value v)
    ∧ ((∀ o, v ≠ Json.obj o) →
        GeoJson.from_str parse s = .error (.ExpectedObjectValue v)
        ∧ GeoJson.from_json_value v = .error (.GeoJsonExpectedObject v)) := by
  constructor
  · rintro o rfl
    rw [from_str_cases, h]
    rfl
  · intro hno
    rw [from_str_cases, h]
    cases v <;> first
      | exact absurd rfl (hno _)
      | exact ⟨rfl, rfl⟩

/-- Counterexample to C4 as stated: on the input "3", read by the parser
as the number 3, the text entry point fails with ExpectedObjectValue
while the value entry point fails with GeoJsonExpectedObject — not the
same error kind. -/
theorem from_str_vs_from_json_value_counterexample :
    (fun (_ : String) => (Except.ok (Json.number 3) : Except ParseErr Json)) "3" =
        Except.ok (Json.number 3)
    ∧ GeoJson.from_str (fun _ => Except.ok (Json.number 3)) "3" =
        Except.error (Error.ExpectedObjectValue (Json.number 3))
    ∧ GeoJson.from_json_value (Json.number 3) =
        Except.error (Error.GeoJsonExpectedObject (Json.number 3))
    ∧ GeoJson.from_str (fun _ => Except.ok (Json.number 3)) "3" ≠
        GeoJson.from_json_value (Json.number 3) :=
  ⟨rfl, rfl, rfl, fun hc => Error.noConfusion (Except.error.inj hc)⟩

/-- Witness for C4 (amended) at an object top level. -/
theorem from_str_vs_from_json_value_witness :
    GeoJson.from_str (fun _ => Except.ok (Json.obj [])) "x" =
      GeoJson.from_json_value (Json.obj []) :=
  (from_str_vs_from_json_value (fun _ => Except.ok (Json.obj [])) "x"
    (Json.obj []) rfl).1 [] rfl

/-- C5: the text entry point fails with MalformedJson e exactly when the
parser fails with e, and with ExpectedObjectValue v exactly when the
parser reads the text as the non-object value v. -/
theorem text_entry_error_classification
    (parse : String → Except ParseErr Json) (s : String) :
    (∀ e, GeoJson.from_str parse s = .error (.MalformedJson e) ↔ parse s = .error e)
    ∧ (∀ v, GeoJson.from_str parse s = .error (.ExpectedObjectValue v) ↔
        (parse s = .ok v ∧ ∀ o, v ≠ Json.obj o)) := by
  rw [from_str_cases]
  cases hp : parse s with
  | error e2 =>
    constructor
    · intro e
      constructor
      · intro h
        cases Error.MalformedJson.inj (Except.error.inj h)
        rfl
      · intro h
        cases Except.error.inj h
        rfl
    · intro v
      constructor
      · intro h
        exact absurd (Except.error.inj h) fun hc => Error.noConfusion hc
      · rintro ⟨h1, -⟩
        cases h1
  | ok w =>
    cases w
    case obj o =>
      constructor
      · intro e
        constructor
        · intro h
          rcases union_object_error_kinds h with h2 | h2 | ⟨m, h2⟩ <;> cases h2
        · intro h
          cases h
      · intro v
        constructor
        · intro h
          rcases union_object_error_kinds h with h2 | h2 | ⟨m, h2⟩ <;> cases h2
        · rintro ⟨h1, h2⟩
          exact absurd (Except.ok.inj h1).symm (h2 o)
    all_goals
      constructor
      · intro e
        constructor
        · intro h
          exact absurd (Except.error.inj h) fun hc => Error.noConfusion hc
        · intro h
          cases h
      · intro v
        constructor
        · intro h
          cases Error.ExpectedObjectValue.inj (Except.error.inj h)
          exact ⟨rfl, fun o2 hc => Json.noConfusion hc⟩
        · rintro ⟨h1, h2⟩
          cases Except.ok.inj h1
          rfl

/-- C6: the value entry point rejects every non-object with
GeoJsonExpectedObject carrying the value, and delegates every object to
the object entry point. -/
theorem value_entry_object_gate (v : Json) :
    ((∀ o, v ≠ Json.obj o) →
      GeoJson.from_json_value v = .error (.GeoJsonExpectedObject v))
    ∧ (∀ o, v = Json.obj o →
      GeoJson.from_json_value v = GeoJson.from_json_object o) := by
  constructor
  · intro hno
    cases v <;> first
      | exact absurd rfl (hno _)
      | rfl
  · rintro o rfl
    rfl

/-- Witness for C6 at the null value. -/
theorem value_entry_object_gate_witness :
    GeoJson.from_json_value Json.null =
      .error (.GeoJsonExpectedObject Json.null) :=
  (value_entry_object_gate Json.null).1 fun _ hc => Json.noConfusion hc

/-- C7: each checked narrowing succeeds on the variant the union holds,
returning the payload unchanged, and fails with ExpectedType carrying
the expected and actual variant labels on the other two. -/
theorem narrowing_checked :
    (∀ g, Geometry.try_from_geojson (GeoJson.Geometry g) = .ok g)
    ∧ (∀ f, Geometry.try_from_geojson (GeoJson.Feature f) =
        .error (.ExpectedType "Geometry" "Feature"))
    ∧ (∀ fc, Geometry.try_from_geojson (GeoJson.FeatureCollection fc) =
        .error (.ExpectedType "Geometry" "FeatureCollection"))
    ∧ (∀ f, Feature.try_from_geojson (GeoJson.Feature f) = .ok f)
    ∧ (∀ g, Feature.try_from_geojson (GeoJson.Geometry g) =
        .error (.ExpectedType "Feature" "Geometry"))
    ∧ (∀ fc, Feature.try_from_geojson (GeoJson.FeatureCollection fc) =
        .error (.ExpectedType "Feature" "FeatureCollection"))
    ∧ (∀ fc, FeatureCollection.try_from_geojson (GeoJson.FeatureCollection fc) = .ok fc)
    ∧ (∀ g, FeatureCollection.try_from_geojson (GeoJson.Geometry g) =
        .error (.ExpectedType "FeatureCollection" "Geometry"))
    ∧ (∀ f, FeatureCollection.try_from_geojson (GeoJson.Feature f) =
        .error (.ExpectedType "FeatureCollection" "Feature")) :=
  ⟨fun _ => rfl, fun _ => rfl, fun _ => rfl, fun _ => rfl, fun _ => rfl,
   fun _ => rfl, fun _ => rfl, fun _ => rfl, fun _ => rfl⟩

/-- C8: wrapping a bare payload into the union is total (a plain
function), and narrowing the wrapped value back to its own variant
returns it unchanged. -/
theorem wrap_then_narrow :
    (∀ g, Geometry.try_from_geojson (GeoJson.from_geometry g) = .ok g)
    ∧ (∀ f, Feature.try_from_geojson (GeoJson.from_feature f) = .ok f)
    ∧ (∀ fc, FeatureCollection.try_from_geojson
        (GeoJson.from_feature_collection fc) = .ok fc) :=
  ⟨fun _ => rfl, fun _ => rfl, fun _ => rfl⟩

/-- C9: the typed-to-JSON direction is total: the object conversion is an
exhaustive match over the three variants, and the value conversion
always yields that object wrapped as a value of object kind. -/
theorem to_json_total_object (u : GeoJson) :
    GeoJson.to_json_value u = Json.obj (GeoJson.toJsonObject u) := by
  cases u <;> rfl

/-- C10: the error kinds of the two entry paths are disjoint: the text
entry point never fails with GeoJsonExpectedObject, and the value and
object entry points never fail with MalformedJson or
ExpectedObjectValue. -/
theorem entry_error_kinds_disjoint
    (parse : String → Except ParseErr Json) (s : String) (v : Json) (o : JsonObject) :
    errSatisfies (fun e => !(textPathExcluded e)) (GeoJson.from_str parse s) = true
    ∧ errSatisfies (fun e => !(valuePathExcluded e)) (GeoJson.from_json_value v) = true
    ∧ errSatisfies (fun e => !(valuePathExcluded e)) (GeoJson.from_json_object o) = true := by
  have hobj : ∀ (o2 : JsonObject) (q : Error → Bool),
      (∀ e, (e = .GeometryUnknownType "type" ∨ e = .EmptyType ∨
             ∃ m, e = .CollaboratorError m) → q e = true) →
      errSatisfies q (GeoJson.from_json_object o2) = true := fun o2 q hq =>
    errSatisfies_from_json_object o2 q hq
  refine ⟨?_, ?_, ?_⟩
  · rw [from_str_cases]
    cases parse s with
    | error e => rfl
    | ok w =>
      cases w <;> first
        | rfl
        | exact hobj _ _ (by rintro e (rfl | rfl | ⟨m, rfl⟩) <;> rfl)
  · cases v <;> first
      | rfl
      | exact hobj _ _ (by rintro e (rfl | rfl | ⟨m, rfl⟩) <;> rfl)
  · exact hobj o _ (by rintro e (rfl | rfl | ⟨m, rfl⟩) <;> rfl)

end Geojson
